import Mathlib

/-!
Verification of the warehouse-management domain layer.

Shallow embedding of `src/domain/models.py`, `src/domain/exceptions.py`,
`src/domain/services.py` and the value-level behaviour of the SQLAlchemy
repositories in `src/infrastructure/repositories.py`:

* Python `int` is `Int`; Python `float` prices are modelled as `ℚ` (prices
  are only compared and copied by the code under consideration, never
  rounded).
* Raising an exception is modelled with `Except DomainError`; a raised
  exception aborts the operation, so an `Except.error` result carries no
  successor value.
* The SQLAlchemy repositories build a fresh domain object on every
  `get`/`list` (`_to_domain`) and write scalar columns back on `update`,
  so the persistent state is modelled as an explicit `Store` value that
  each service operation threads through; a persisted order row keeps only
  `product_id`, `quantity` and `price_at_order` per item (see
  `OrderItemORM` in `src/infrastructure/orm.py`), and re-reading an order
  joins each row to the *current* product row.
-/

/-- Error taxonomy of `src/domain/exceptions.py`, together with Python
`ValueError` (the generic validation error) and the `AttributeError`
crash that `_to_domain` hits when an order-item row joins to no product
row. `productNotFound` carries an `Option Int` because the service can
be called with the `None` identity of an unsaved product. -/
inductive DomainError where
  | productNotFound (product_id : Option Int)
  | orderNotFound (order_id : Int)
  | insufficientStock (product_name : String) (requested : Int) (available : Int)
  | invalidPrice (price : ℚ)
  | invalidQuantity (quantity : Int)
  | valueError (msg : String)
  | attributeError
deriving Repr, DecidableEq

/-- `Product` dataclass of `src/domain/models.py`. -/
structure Product where
  id : Option Int
  name : String
  quantity : Int
  price : ℚ
deriving Repr, DecidableEq

/-- Python `str.strip()` with no arguments: drop leading and trailing
whitespace characters. -/
def pystrip (s : String) : String :=
  ⟨((s.data.dropWhile Char.isWhitespace).reverse.dropWhile Char.isWhitespace).reverse⟩

/-- `Product._validate`, run by `__post_init__`: price must be positive,
quantity non-negative, name non-empty and not whitespace-only
(`not self.name or not self.name.strip()`). -/
def Product.validate (p : Product) : Except DomainError Unit :=
  if p.price ≤ 0 then .error (.invalidPrice p.price)
  else if p.quantity < 0 then .error (.invalidQuantity p.quantity)
  else if p.name.isEmpty || (pystrip p.name).isEmpty then
    .error (.valueError "Product name cannot be empty")
  else .ok ()

/-- `Product(id, name, quantity, price)`: the dataclass constructor runs
`__post_init__`, so an invalid value never yields a product. -/
def Product.construct (id : Option Int) (name : String) (quantity : Int)
    (price : ℚ) : Except DomainError Product :=
  let p : Product := ⟨id, name, quantity, price⟩
  match p.validate with
  | .error e => .error e
  | .ok _ => .ok p

/-- `Product.reduce_quantity`. -/
def Product.reduce_quantity (p : Product) (amount : Int) : Except DomainError Product :=
  if amount ≤ 0 then .error (.invalidQuantity amount)
  else if amount > p.quantity then .error (.insufficientStock p.name amount p.quantity)
  else .ok { p with quantity := p.quantity - amount }

/-- `Product.increase_quantity`. -/
def Product.increase_quantity (p : Product) (amount : Int) : Except DomainError Product :=
  if amount ≤ 0 then .error (.invalidQuantity amount)
  else .ok { p with quantity := p.quantity + amount }

/-- `Product.is_in_stock` property. -/
def Product.is_in_stock (p : Product) : Bool :=
  decide (p.quantity > 0)

/-- `OrderItem` dataclass. -/
structure OrderItem where
  product : Product
  quantity : Int
  price_at_order : ℚ
deriving Repr, DecidableEq

/-- `OrderItem(product, quantity, price_at_order)` with its
`__post_init__` validation. -/
def OrderItem.construct (product : Product) (quantity : Int)
    (price_at_order : ℚ) : Except DomainError OrderItem :=
  if quantity ≤ 0 then .error (.invalidQuantity quantity)
  else if price_at_order ≤ 0 then .error (.invalidPrice price_at_order)
  else .ok ⟨product, quantity, price_at_order⟩

/-- `OrderItem.total_price` property. -/
def OrderItem.total_price (it : OrderItem) : ℚ :=
  it.quantity * it.price_at_order

/-- `Order` dataclass. `created_at` (a wall-clock timestamp the business
rules never inspect) is modelled as an abstract `Nat`. -/
structure Order where
  id : Option Int
  items : List OrderItem := []
  created_at : Nat := 0
  status : String := "pending"
deriving Repr, DecidableEq

/-- The `for item in self.items` loop of `Order.add_item`: find the first
item whose product id equals the given one and increment its quantity;
`none` when no item matches (Python falls through the loop). -/
def Order.merge_item : List OrderItem → Option Int → Int → Option (List OrderItem)
  | [], _, _ => none
  | it :: rest, pid, q =>
    if it.product.id = pid then some ({ it with quantity := it.quantity + q } :: rest)
    else (Order.merge_item rest pid q).map (it :: ·)

/-- `Order.add_item(product, quantity)`. -/
def Order.add_item (o : Order) (product : Product) (quantity : Int) :
    Except DomainError Order :=
  if quantity ≤ 0 then .error (.invalidQuantity quantity)
  else
    match Order.merge_item o.items product.id quantity with
    | some items => .ok { o with items := items }
    | none =>
      match OrderItem.construct product quantity product.price with
      | .error e => .error e
      | .ok it => .ok { o with items := o.items ++ [it] }

/-- `Order.remove_item(product_id)`. -/
def Order.remove_item (o : Order) (product_id : Int) : Order :=
  { o with items := o.items.filter (fun it => it.product.id ≠ some product_id) }

/-- `Order.total_price` property. -/
def Order.total_price (o : Order) : ℚ :=
  (o.items.map OrderItem.total_price).sum

/-- `Order.total_items` property. -/
def Order.total_items (o : Order) : Int :=
  (o.items.map OrderItem.quantity).sum

/-- `Order.confirm`: only checks that the order has items. -/
def Order.confirm (o : Order) : Except DomainError Order :=
  if o.items.isEmpty then .error (.valueError "Cannot confirm empty order")
  else .ok { o with status := "confirmed" }

/-- `Order.complete`. -/
def Order.complete (o : Order) : Except DomainError Order :=
  if o.status ≠ "confirmed" then
    .error (.valueError ("Can only complete confirmed orders, current status: " ++ o.status))
  else .ok { o with status := "completed" }

/-- `Order.cancel`. -/
def Order.cancel (o : Order) : Except DomainError Order :=
  if o.status = "completed" then .error (.valueError "Cannot cancel completed order")
  else .ok { o with status := "cancelled" }

/-- One row of the `order_items` table (`OrderItemORM`): the repository
persists only the product identity, the quantity and the locked-in price
of each line (`SqlAlchemyOrderRepository.add`). -/
structure StoredItem where
  product_id : Option Int
  quantity : Int
  price_at_order : ℚ
deriving Repr, DecidableEq

/-- One row of the `orders` table together with its item rows. -/
structure StoredOrder where
  id : Int
  status : String
  created_at : Nat
  items : List StoredItem
deriving Repr, DecidableEq

/-- The persistent state seen through the SQLAlchemy session: the product
rows (each carrying its assigned identity), the order rows, and the
auto-increment counter for order identities. -/
structure Store where
  products : List Product
  orders : List StoredOrder
  next_order_id : Int := 1
deriving Repr, DecidableEq

/-- Render an optional identity the way Python string-formats it. -/
def idStr : Option Int → String
  | none => "None"
  | some i => toString i

/-- `ProductRepository.get` / `filter_by(id=...)`: first row with the given
identity; a `None` identity matches no row (the primary key is non-null). -/
def Store.find_product (s : Store) (pid : Option Int) : Option Product :=
  match pid with
  | none => none
  | some i => s.products.find? (fun p => decide (p.id = some i))

/-- Overwrite the first product row carrying identity `i` with `p`, as
`SqlAlchemyProductRepository.update` does; `none` when no row matches. -/
def replace_product_row : List Product → Int → Product → Option (List Product)
  | [], _, _ => none
  | q :: rest, i, p =>
    if q.id = some i then some (p :: rest)
    else (replace_product_row rest i p).map (q :: ·)

/-- `ProductRepository.update`: raises `ValueError` when the identity is
unknown, otherwise writes the scalar columns back to the row. -/
def Store.product_update (s : Store) (p : Product) : Except DomainError Store :=
  match p.id with
  | none => .error (.valueError "Product with id None not found")
  | some i =>
    match replace_product_row s.products i p with
    | none => .error (.valueError ("Product with id " ++ toString i ++ " not found"))
    | some rows => .ok { s with products := rows }

/-- Drop the first product row carrying identity `i`; `none` when absent. -/
def remove_product_row : List Product → Int → Option (List Product)
  | [], _ => none
  | q :: rest, i =>
    if q.id = some i then some rest
    else (remove_product_row rest i).map (q :: ·)

/-- `ProductRepository.delete`: `false` when the row is absent, otherwise
removes it and reports `true`. -/
def Store.product_delete (s : Store) (pid : Int) : Bool × Store :=
  match remove_product_row s.products pid with
  | none => (false, s)
  | some rows => (true, { s with products := rows })

/-- `OrderRepository.add`: build the order row and one item row per line
(only `product_id`, `quantity`, `price_at_order` are persisted), assign
the next identity, and return the stored order. -/
def Store.order_add (s : Store) (o : Order) : StoredOrder × Store :=
  let so : StoredOrder :=
    ⟨s.next_order_id, o.status, o.created_at,
      o.items.map fun it => ⟨it.product.id, it.quantity, it.price_at_order⟩⟩
  (so, { s with orders := s.orders ++ [so], next_order_id := s.next_order_id + 1 })

/-- `_to_domain` for one item row: join to the *current* product row (the
`joinedload` of `OrderItemORM.product`) and rebuild the `OrderItem`,
re-running its validation; a dangling join crashes (`AttributeError`). -/
def Store.rebuild_item (s : Store) (it : StoredItem) : Except DomainError OrderItem :=
  match s.find_product it.product_id with
  | none => .error .attributeError
  | some p => OrderItem.construct p it.quantity it.price_at_order

/-- Rebuild every item row of an order, left to right. -/
def rebuild_items (s : Store) : List StoredItem → Except DomainError (List OrderItem)
  | [] => .ok []
  | it :: rest =>
    match s.rebuild_item it with
    | .error e => .error e
    | .ok item =>
      match rebuild_items s rest with
      | .error e => .error e
      | .ok items => .ok (item :: items)

/-- `SqlAlchemyOrderRepository._to_domain` on a stored order. -/
def Store.rebuild_order (s : Store) (so : StoredOrder) : Except DomainError Order :=
  match rebuild_items s so.items with
  | .error e => .error e
  | .ok items => .ok ⟨some so.id, items, so.created_at, so.status⟩

/-- `OrderRepository.get`: `none` when the row is absent, otherwise the
rebuilt order. -/
def Store.order_get (s : Store) (oid : Int) : Except DomainError (Option Order) :=
  match s.orders.find? (fun so => decide (so.id = oid)) with
  | none => .ok none
  | some so =>
    match s.rebuild_order so with
    | .error e => .error e
    | .ok o => .ok (some o)

/-- Rebuild a list of stored orders, left to right. -/
def rebuild_orders (s : Store) : List StoredOrder → Except DomainError (List Order)
  | [] => .ok []
  | so :: rest =>
    match s.rebuild_order so with
    | .error e => .error e
    | .ok o =>
      match rebuild_orders s rest with
      | .error e => .error e
      | .ok os => .ok (o :: os)

/-- `OrderRepository.list`. -/
def Store.orders_list (s : Store) : Except DomainError (List Order) :=
  rebuild_orders s s.orders

/-- Set the status of the first order row carrying identity `i`; `none`
when absent. -/
def replace_order_status : List StoredOrder → Int → String → Option (List StoredOrder)
  | [], _, _ => none
  | so :: rest, i, st =>
    if so.id = i then some ({ so with status := st } :: rest)
    else (replace_order_status rest i st).map (so :: ·)

/-- `OrderRepository.update`: only the status column is written back
("items updates are not implemented yet"). -/
def Store.order_update (s : Store) (o : Order) : Except DomainError Store :=
  match o.id with
  | none => .error (.valueError "Order with id None not found")
  | some i =>
    match replace_order_status s.orders i o.status with
    | none => .error (.valueError ("Order with id " ++ toString i ++ " not found"))
    | some rows => .ok { s with orders := rows }

/-- `WarehouseService.get_product`: load or raise `ProductNotFoundError`.
Read-only, so the store is returned unchanged by its callers. -/
def WarehouseService.get_product (s : Store) (pid : Option Int) :
    Except DomainError Product :=
  match s.find_product pid with
  | none => .error (.productNotFound pid)
  | some p => .ok p

/-- `WarehouseService.get_order`: load or raise `OrderNotFoundError`. -/
def WarehouseService.get_order (s : Store) (oid : Int) : Except DomainError Order :=
  match s.order_get oid with
  | .error e => .error e
  | .ok none => .error (.orderNotFound oid)
  | .ok (some o) => .ok o

/-- The per-pair loop of `WarehouseService.create_order`: load the
product, check stock, add the line to the in-memory order, reduce the
stock and persist it immediately. An exception propagates, leaving the
updates of the earlier iterations in place (the second component is the
store at the moment the exception is raised). -/
def WarehouseService.create_order_loop (s : Store) (o : Order) :
    List (Int × Int) → Except DomainError Order × Store
  | [] => (.ok o, s)
  | (product_id, quantity) :: rest =>
    match WarehouseService.get_product s (some product_id) with
    | .error e => (.error e, s)
    | .ok product =>
      if product.quantity < quantity then
        (.error (.insufficientStock product.name quantity product.quantity), s)
      else
        match o.add_item product quantity with
        | .error e => (.error e, s)
        | .ok o2 =>
          match product.reduce_quantity quantity with
          | .error e => (.error e, s)
          | .ok product2 =>
            match s.product_update product2 with
            | .error e => (.error e, s)
            | .ok s2 => WarehouseService.create_order_loop s2 o2 rest

/-- `WarehouseService.create_order`: run the loop on a fresh pending
order, then persist the order. The returned value is the stored order
row (the in-memory `Order` object Python returns additionally aliases
the mutated product objects; only its persisted projection is modelled,
which is all the repository keeps of it). -/
def WarehouseService.create_order (s : Store) (pairs : List (Int × Int)) :
    Except DomainError StoredOrder × Store :=
  match WarehouseService.create_order_loop s ⟨none, [], 0, "pending"⟩ pairs with
  | (.error e, s2) => (.error e, s2)
  | (.ok o, s2) =>
    let (so, s3) := s2.order_add o
    (.ok so, s3)

/-- The restore loop of `WarehouseService.cancel_order`: for every line,
reload the current product record by the line's product identity,
increase its quantity by the line's quantity, and persist it. -/
def WarehouseService.restore_items (s : Store) :
    List OrderItem → Except DomainError Unit × Store
  | [] => (.ok (), s)
  | it :: rest =>
    match WarehouseService.get_product s it.product.id with
    | .error e => (.error e, s)
    | .ok product =>
      match product.increase_quantity it.quantity with
      | .error e => (.error e, s)
      | .ok product2 =>
        match s.product_update product2 with
        | .error e => (.error e, s)
        | .ok s2 => WarehouseService.restore_items s2 rest

/-- `WarehouseService.cancel_order`. -/
def WarehouseService.cancel_order (s : Store) (oid : Int) :
    Except DomainError Order × Store :=
  match WarehouseService.get_order s oid with
  | .error e => (.error e, s)
  | .ok order =>
    if order.status ≠ "pending" ∧ order.status ≠ "confirmed" then
      (.error (.valueError ("Cannot cancel order with status " ++ order.status)), s)
    else
      match WarehouseService.restore_items s order.items with
      | (.error e, s2) => (.error e, s2)
      | (.ok _, s2) =>
        match order.cancel with
        | .error e => (.error e, s2)
        | .ok order2 =>
          match s2.order_update order2 with
          | .error e => (.error e, s2)
          | .ok s3 => (.ok order2, s3)

/-- The scan of `WarehouseService.delete_product`: first order among the
rebuilt orders with a line referencing the given product identity. -/
def find_referencing_order (orders : List Order) (product_id : Int) : Option Order :=
  orders.find? (fun o => o.items.any (fun it => decide (it.product.id = some product_id)))

/-- `WarehouseService.delete_product`: load the product (`NotFound` when
absent), scan every order's lines for a reference, raise `ValueError`
naming the referencing order on a match, otherwise invoke the store
delete. -/
def WarehouseService.delete_product (s : Store) (product_id : Int) :
    Except DomainError Bool × Store :=
  match WarehouseService.get_product s (some product_id) with
  | .error e => (.error e, s)
  | .ok _ =>
    match s.orders_list with
    | .error e => (.error e, s)
    | .ok all_orders =>
      match find_referencing_order all_orders product_id with
      | some o =>
        (.error (.valueError ("Cannot delete product " ++ toString product_id ++
          ": it is referenced in order " ++ idStr o.id)), s)
      | none =>
        let (found, s2) := s.product_delete product_id
        (.ok found, s2)

/-- `WarehouseService.restock_product`. -/
def WarehouseService.restock_product (s : Store) (product_id : Int) (quantity : Int) :
    Except DomainError Product × Store :=
  match WarehouseService.get_product s (some product_id) with
  | .error e => (.error e, s)
  | .ok product =>
    match product.increase_quantity quantity with
    | .error e => (.error e, s)
    | .ok product2 =>
      match s.product_update product2 with
      | .error e => (.error e, s)
      | .ok s2 => (.ok product2, s2)

/-- `WarehouseService.update_product_price`: `dataclasses.replace` builds
a new product, re-running `__post_init__`, before persisting. -/
def WarehouseService.update_product_price (s : Store) (product_id : Int)
    (new_price : ℚ) : Except DomainError Product × Store :=
  match WarehouseService.get_product s (some product_id) with
  | .error e => (.error e, s)
  | .ok old =>
    match Product.construct old.id old.name old.quantity new_price with
    | .error e => (.error e, s)
    | .ok new_p =>
      match s.product_update new_p with
      | .error e => (.error e, s)
      | .ok s2 => (.ok new_p, s2)

/-- A catalog with one product ("Laptop", stock 10, price 50), used as
the starting state of the concrete scenarios below. -/
def c2_store0 : Store := ⟨[⟨some 1, "Laptop", 10, 50⟩], [], 1⟩

/-- The store after `create_order([(1, 2)])` on `c2_store0`: stock 8, one
stored order row. -/
def c2_store1 : Store := (WarehouseService.create_order c2_store0 [(1, 2)]).2

/-- The store after additionally restocking product 1 by 5: stock 13. -/
def c2_store2 : Store := (WarehouseService.restock_product c2_store1 1 5).2

/-- A catalog with a single product whose stock is 1. -/
def c7_store : Store := ⟨[⟨some 1, "Laptop", 1, 50⟩], [], 1⟩

/-- Two products: plenty of stock of "A", only 1 unit of "B". -/
def c7b_store : Store := ⟨[⟨some 1, "A", 10, 50⟩, ⟨some 2, "B", 1, 50⟩], [], 1⟩

/-- A store holding a pending order of 2 units of product 1 (stock 8). -/
def c8_store : Store := ⟨[⟨some 1, "Laptop", 8, 50⟩], [⟨1, "pending", 0, [⟨some 1, 2, 50⟩]⟩], 2⟩

/-- Like `c8_store`, but the order is already completed. -/
def c8b_store : Store :=
  ⟨[⟨some 1, "Laptop", 8, 50⟩], [⟨1, "completed", 0, [⟨some 1, 2, 50⟩]⟩], 2⟩

/-- Two products, of which only product 1 is referenced by an order. -/
def c9_store : Store :=
  ⟨[⟨some 1, "Laptop", 10, 50⟩, ⟨some 2, "Mouse", 5, 10⟩],
   [⟨1, "completed", 0, [⟨some 1, 2, 50⟩]⟩], 2⟩

/-- Specification vocabulary: total quantity over the order lines that
reference the given product identity. -/
def line_quantity_sum (items : List OrderItem) (pid : Option Int) : Int :=
  ((items.filter (fun it => decide (it.product.id = pid))).map OrderItem.quantity).sum

/-- Claim C1 (counterexample): a completed order with one line is
confirmed successfully by `Order.confirm` — the transition leaves the
terminal `completed` state, so terminality fails on the code. -/
theorem C1_counterexample :
    (Order.mk (some 7) [⟨⟨some 1, "Laptop", 10, 50⟩, 2, 50⟩] 0 "completed").status
      = "completed" ∧
    (Order.mk (some 7) [⟨⟨some 1, "Laptop", 10, 50⟩, 2, 50⟩] 0 "completed").items ≠ [] ∧
    (Order.mk (some 7) [⟨⟨some 1, "Laptop", 10, 50⟩, 2, 50⟩] 0 "completed").confirm
      = .ok (Order.mk (some 7) [⟨⟨some 1, "Laptop", 10, 50⟩, 2, 50⟩] 0 "confirmed") :=
  ⟨rfl, by decide, rfl⟩

/-- Claim C1 (amended): `Complete()` fails from any status other than
`confirmed` and `Cancel()` fails exactly from `completed` (succeeding on
an already-cancelled order, which it leaves cancelled), but `Confirm()`
checks only that the order has at least one item: it succeeds from any
status — including the terminal `completed` and `cancelled` — and sets
the status to `confirmed`. -/
theorem C1_state_machine (o : Order) :
    (o.items ≠ [] → o.confirm = .ok { o with status := "confirmed" }) ∧
    (o.items = [] → o.confirm = .error (.valueError "Cannot confirm empty order")) ∧
    (o.status ≠ "confirmed" → o.complete =
      .error (.valueError ("Can only complete confirmed orders, current status: " ++ o.status))) ∧
    (o.status = "completed" → o.cancel = .error (.valueError "Cannot cancel completed order")) ∧
    (o.status = "cancelled" → o.cancel = .ok { o with status := "cancelled" }) := by
  refine ⟨?_, ?_, ?_, ?_, ?_⟩
  · intro h
    simp [Order.confirm, List.isEmpty_iff, h]
  · intro h
    simp [Order.confirm, List.isEmpty_iff, h]
  · intro h
    simp [Order.complete, h]
  · intro h
    simp [Order.cancel, h]
  · intro h
    have : o.status ≠ "completed" := by simp [h]
    simp [Order.cancel, this]

/-- Witness for C1: the amended state-machine facts evaluated on a
cancelled one-line order and on an empty completed order. -/
theorem C1_state_machine_witness :
    (Order.mk (some 2) [⟨⟨some 1, "Laptop", 10, 50⟩, 2, 50⟩] 0 "cancelled").confirm
      = .ok (Order.mk (some 2) [⟨⟨some 1, "Laptop", 10, 50⟩, 2, 50⟩] 0 "confirmed") ∧
    (Order.mk (some 2) [⟨⟨some 1, "Laptop", 10, 50⟩, 2, 50⟩] 0 "cancelled").complete
      = .error (.valueError ("Can only complete confirmed orders, current status: " ++ "cancelled")) ∧
    (Order.mk (some 2) [⟨⟨some 1, "Laptop", 10, 50⟩, 2, 50⟩] 0 "cancelled").cancel
      = .ok (Order.mk (some 2) [⟨⟨some 1, "Laptop", 10, 50⟩, 2, 50⟩] 0 "cancelled") ∧
    (Order.mk (some 3) [] 0 "completed").confirm
      = .error (.valueError "Cannot confirm empty order") ∧
    (Order.mk (some 3) [] 0 "completed").cancel
      = .error (.valueError "Cannot cancel completed order") :=
  ⟨(C1_state_machine _).1 (by decide),
   (C1_state_machine _).2.2.1 (by decide),
   (C1_state_machine _).2.2.2.2 rfl,
   (C1_state_machine _).2.1 rfl,
   (C1_state_machine _).2.2.2.1 rfl⟩

/-- Claim C4: on any product with non-negative stock, reducing by more
than the current quantity fails with `InsufficientStock` carrying the
product name, the requested amount and the available amount, and
reducing by a non-positive amount fails with `InvalidQuantity`; an
`Except.error` result carries no updated product, so the quantity is
unchanged by either failure. -/
theorem C4_reduce_quantity (p : Product) (q : Int) :
    (0 ≤ p.quantity → p.quantity < q →
      p.reduce_quantity q = .error (.insufficientStock p.name q p.quantity)) ∧
    (q ≤ 0 → p.reduce_quantity q = .error (.invalidQuantity q)) := by
  constructor
  · intro h0 hq
    have h1 : ¬ q ≤ 0 := by omega
    simp [Product.reduce_quantity, h1, hq]
  · intro h
    simp [Product.reduce_quantity, h]

/-- Witness for C4 on a stock of 10: reducing by 12 reports
`InsufficientStock("Laptop", 12, 10)`; reducing by 0 reports
`InvalidQuantity 0`. -/
theorem C4_reduce_quantity_witness :
    (0 : Int) ≤ 10 ∧ (10 : Int) < 12 ∧ (0 : Int) ≥ 0 ∧
    (Product.mk (some 1) "Laptop" 10 50).reduce_quantity 12
      = .error (.insufficientStock "Laptop" 12 10) ∧
    (Product.mk (some 1) "Laptop" 10 50).reduce_quantity 0
      = .error (.invalidQuantity 0) :=
  ⟨by decide, by decide, by decide,
   (C4_reduce_quantity _ _).1 (by decide) (by decide),
   (C4_reduce_quantity _ _).2 (by decide)⟩

/-- Claim C6: reducing by `q` and increasing by the same `q` restores
the product exactly, whenever `0 < q ≤ quantity`. -/
theorem C6_round_trip (p : Product) (q : Int) (h1 : 0 < q) (h2 : q ≤ p.quantity) :
    Except.bind (p.reduce_quantity q) (fun p1 => p1.increase_quantity q) = .ok p := by
  have hq : ¬ q ≤ 0 := by omega
  have hgt : ¬ q > p.quantity := by omega
  simp only [Product.reduce_quantity, Product.increase_quantity, if_neg hq, if_neg hgt,
    Except.bind]
  cases p with
  | mk id name quantity price =>
    have h3 : quantity - q + q = quantity := by omega
    rw [h3]

/-- Witness for C6 at stock 10, q = 4. -/
theorem C6_round_trip_witness :
    (0 : Int) < 4 ∧ (4 : Int) ≤ 10 ∧
    Except.bind ((Product.mk (some 1) "Laptop" 10 50).reduce_quantity 4)
      (fun p1 => p1.increase_quantity 4) = .ok (Product.mk (some 1) "Laptop" 10 50) :=
  ⟨by decide, by decide, C6_round_trip _ 4 (by decide) (by decide)⟩

/-- Claim C5: constructing a product fails with `InvalidPrice` whenever
the price is non-positive; with `InvalidQuantity` whenever the price is
valid but the quantity negative; with the generic validation error
whenever price and quantity are valid but the name strips to empty; and
succeeds on valid input, the resulting product reporting in-stock
exactly when the quantity is positive. A failed construction yields no
product at all (`Except.error` carries no value). -/
theorem C5_product_construction (id : Option Int) (name : String) (q : Int) (price : ℚ) :
    (price ≤ 0 → Product.construct id name q price = .error (.invalidPrice price)) ∧
    (0 < price → q < 0 → Product.construct id name q price = .error (.invalidQuantity q)) ∧
    (0 < price → 0 ≤ q → pystrip name = "" →
      Product.construct id name q price = .error (.valueError "Product name cannot be empty")) ∧
    (0 < price → 0 ≤ q → pystrip name ≠ "" →
      Product.construct id name q price = .ok ⟨id, name, q, price⟩) ∧
    ((Product.mk id name q price).is_in_stock = true ↔ 0 < q) := by
  refine ⟨?_, ?_, ?_, ?_, ?_⟩
  · intro h
    simp [Product.construct, Product.validate, h]
  · intro hp hq
    simp [Product.construct, Product.validate, not_le.2 hp, hq]
  · intro hp hq hn
    have h1 : ¬ price ≤ 0 := not_le.2 hp
    have h2 : ¬ q < 0 := not_lt.2 hq
    have h3 : (pystrip name).isEmpty = true := by
      rw [String.isEmpty_iff]
      exact hn
    simp [Product.construct, Product.validate, h1, h2, h3]
  · intro hp hq hn
    have h1 : ¬ price ≤ 0 := not_le.2 hp
    have h2 : ¬ q < 0 := not_lt.2 hq
    have h3 : (pystrip name).isEmpty = false := by
      rw [Bool.eq_false_iff, Ne, String.isEmpty_iff]
      exact hn
    have h4 : name.isEmpty = false := by
      rw [Bool.eq_false_iff, Ne, String.isEmpty_iff]
      intro h
      exact hn (by subst h; rfl)
    simp [Product.construct, Product.validate, h1, h2, h3, h4]
  · simp [Product.is_in_stock]

/-- Witness for C5: concrete constructions for every branch. -/
theorem C5_product_construction_witness :
    ((-3 : ℚ) ≤ 0 ∧
      Product.construct (some 1) "Laptop" 10 (-3) = .error (.invalidPrice (-3))) ∧
    ((0 : ℚ) < 50 ∧ (-2 : Int) < 0 ∧
      Product.construct (some 1) "Laptop" (-2) 50 = .error (.invalidQuantity (-2))) ∧
    ((0 : ℚ) < 50 ∧ (0 : Int) ≤ 10 ∧ pystrip "  " = "" ∧
      Product.construct (some 1) "  " 10 50 = .error (.valueError "Product name cannot be empty")) ∧
    ((0 : ℚ) < 50 ∧ (0 : Int) ≤ 10 ∧ pystrip "Laptop" ≠ "" ∧
      Product.construct (some 1) "Laptop" 10 50 = .ok ⟨some 1, "Laptop", 10, 50⟩) ∧
    ((Product.mk (some 1) "Laptop" 10 50).is_in_stock = true ↔ (0 : Int) < 10) :=
  ⟨⟨by norm_num, (C5_product_construction _ _ _ _).1 (by norm_num)⟩,
   ⟨by norm_num, by decide, (C5_product_construction _ _ _ _).2.1 (by norm_num) (by decide)⟩,
   ⟨by norm_num, by decide, by decide,
     (C5_product_construction _ _ _ _).2.2.1 (by norm_num) (by decide) (by decide)⟩,
   ⟨by norm_num, by decide, by decide,
     (C5_product_construction _ _ _ _).2.2.2.1 (by norm_num) (by decide) (by decide)⟩,
   (C5_product_construction (some 1) "Laptop" 10 50).2.2.2.2⟩

/-- When no existing line matches the identity, the merge loop of
`add_item` falls through. -/
theorem Order.merge_item_of_forall_ne {items : List OrderItem} {pid : Option Int}
    (h : ∀ it ∈ items, it.product.id ≠ pid) (q : Int) :
    Order.merge_item items pid q = none := by
  induction items with
  | nil => rfl
  | cons it rest ih =>
    have h1 : it.product.id ≠ pid := h it (List.mem_cons_self _ _)
    have h2 := ih (fun x hx => h x (List.mem_cons_of_mem _ hx))
    simp [Order.merge_item, h1, h2]

/-- When only the last line matches the identity, the merge loop bumps
exactly that line's quantity. -/
theorem Order.merge_item_append {items : List OrderItem} {pid : Option Int}
    (h : ∀ it ∈ items, it.product.id ≠ pid) (it0 : OrderItem)
    (hit : it0.product.id = pid) (q : Int) :
    Order.merge_item (items ++ [it0]) pid q =
      some (items ++ [{ it0 with quantity := it0.quantity + q }]) := by
  induction items with
  | nil => simp [Order.merge_item, hit]
  | cons it rest ih =>
    have h1 : it.product.id ≠ pid := h it (List.mem_cons_self _ _)
    have h2 := ih (fun x hx => h x (List.mem_cons_of_mem _ hx))
    simp [Order.merge_item, h1, h2]

/-- Claim C3: on an order with no line for the product identity yet,
adding quantities `a` then `b` (through any product value with the same
identity) leaves exactly one line for that identity, with quantity
`a + b`, carrying the first product's data, and its `price_at_order` is
the price captured at the first add — the second product's current price
is ignored. Adding a non-positive quantity fails with
`InvalidQuantity`. -/
theorem C3_add_item_merge (o : Order) (p p2 : Product) (a b : Int)
    (hid : p2.id = p.id)
    (hnew : ∀ it ∈ o.items, it.product.id ≠ p.id)
    (ha : 0 < a) (hb : 0 < b) (hprice : 0 < p.price) :
    (o.add_item p a = .ok { o with items := o.items ++ [⟨p, a, p.price⟩] } ∧
     Order.add_item { o with items := o.items ++ [⟨p, a, p.price⟩] } p2 b =
       .ok { o with items := o.items ++ [⟨p, a + b, p.price⟩] } ∧
     (o.items ++ [(⟨p, a + b, p.price⟩ : OrderItem)]).countP
       (fun it => decide (it.product.id = p.id)) = 1) ∧
    (∀ q : Int, q ≤ 0 → o.add_item p q = .error (.invalidQuantity q)) := by
  have hmerge := Order.merge_item_of_forall_ne hnew a
  have hmerge2 := Order.merge_item_append hnew (⟨p, a, p.price⟩ : OrderItem) rfl b
  have hc0 : o.items.countP (fun it => decide (it.product.id = p.id)) = 0 := by
    rw [List.countP_eq_zero]
    intro it hit
    simp [hnew it hit]
  refine ⟨⟨?_, ?_, ?_⟩, ?_⟩
  · simp [Order.add_item, not_le.2 ha, hmerge, OrderItem.construct, not_le.2 hprice]
  · simp [Order.add_item, not_le.2 hb, hid, hmerge2]
  · simp [List.countP_append, hc0, List.countP_cons]
  · intro q hq
    simp [Order.add_item, hq]

/-- Witness for C3: adding 2 then 3 units of product 1 (the second time
through a product value with the same identity but current price 60)
yields one line of quantity 5 priced at the original 50. -/
theorem C3_add_item_merge_witness :
    (Order.mk (some 9) [] 0 "pending").add_item ⟨some 1, "Laptop", 10, 50⟩ 2
      = .ok (Order.mk (some 9) [⟨⟨some 1, "Laptop", 10, 50⟩, 2, 50⟩] 0 "pending") ∧
    (Order.mk (some 9) [⟨⟨some 1, "Laptop", 10, 50⟩, 2, 50⟩] 0 "pending").add_item
        ⟨some 1, "Laptop", 10, 60⟩ 3
      = .ok (Order.mk (some 9) [⟨⟨some 1, "Laptop", 10, 50⟩, 5, 50⟩] 0 "pending") ∧
    ([(⟨⟨some 1, "Laptop", 10, 50⟩, 5, 50⟩ : OrderItem)].countP
      (fun it => decide (it.product.id = some 1)) = 1) ∧
    (Order.mk (some 9) [] 0 "pending").add_item ⟨some 1, "Laptop", 10, 50⟩ 0
      = .error (.invalidQuantity 0) := by
  have H := C3_add_item_merge (Order.mk (some 9) [] 0 "pending")
    ⟨some 1, "Laptop", 10, 50⟩ ⟨some 1, "Laptop", 10, 60⟩ 2 3 rfl
    (by simp) (by decide) (by decide) (by decide)
  exact ⟨H.1.1, H.1.2.1, H.1.2.2, H.2 0 (by decide)⟩

/-- Claim C10: `add_item` matches lines by product identity alone, so two
distinct product values that both carry identity `None` merge into a
single line holding the first product's data and captured price, with
quantity equal to the sum of the two requested quantities. -/
theorem C10_none_id_merge (o : Order) (p1 p2 : Product) (a b : Int)
    (h1 : p1.id = none) (h2 : p2.id = none)
    (hnew : ∀ it ∈ o.items, it.product.id ≠ none)
    (ha : 0 < a) (hb : 0 < b) (hp : 0 < p1.price) :
    o.add_item p1 a = .ok { o with items := o.items ++ [⟨p1, a, p1.price⟩] } ∧
    Order.add_item { o with items := o.items ++ [⟨p1, a, p1.price⟩] } p2 b =
      .ok { o with items := o.items ++ [⟨p1, a + b, p1.price⟩] } := by
  have hnew1 : ∀ it ∈ o.items, it.product.id ≠ p1.id := by
    intro it hit
    rw [h1]
    exact hnew it hit
  have hmerge := Order.merge_item_of_forall_ne hnew1 a
  have hmerge2 := Order.merge_item_append hnew1 (⟨p1, a, p1.price⟩ : OrderItem) rfl b
  constructor
  · simp [Order.add_item, not_le.2 ha, hmerge, OrderItem.construct, not_le.2 hp]
  · rw [h1] at hmerge2
    rw [← h2] at hmerge2
    simp [Order.add_item, not_le.2 hb, hmerge2]

/-- Witness for C10: a "Laptop" and a "Mouse", both unsaved (identity
`None`), merge into one "Laptop" line of quantity 5 at the laptop's
price. -/
theorem C10_none_id_merge_witness :
    (Order.mk (some 4) [] 0 "pending").add_item ⟨none, "Laptop", 10, 50⟩ 2
      = .ok (Order.mk (some 4) [⟨⟨none, "Laptop", 10, 50⟩, 2, 50⟩] 0 "pending") ∧
    (Order.mk (some 4) [⟨⟨none, "Laptop", 10, 50⟩, 2, 50⟩] 0 "pending").add_item
        ⟨none, "Mouse", 5, 10⟩ 3
      = .ok (Order.mk (some 4) [⟨⟨none, "Laptop", 10, 50⟩, 5, 50⟩] 0 "pending") := by
  have H := C10_none_id_merge (Order.mk (some 4) [] 0 "pending")
    ⟨none, "Laptop", 10, 50⟩ ⟨none, "Mouse", 5, 10⟩ 2 3 rfl rfl
    (by simp) (by decide) (by decide) (by decide)
  exact H

/-- A successful `OrderItem` construction returns exactly the given
fields. -/
theorem OrderItem.construct_ok {p : Product} {q : Int} {pr : ℚ} {it : OrderItem}
    (h : OrderItem.construct p q pr = .ok it) : it = ⟨p, q, pr⟩ := by
  unfold OrderItem.construct at h
  split at h
  · exact absurd h (by simp)
  · split at h
    · exact absurd h (by simp)
    · injection h with h
      exact h.symm

/-- Rebuilt order lines take quantity and locked-in price from the
stored row, and their embedded product is the *current* catalog row for
the stored product identity. -/
theorem rebuild_items_ok {s : Store} : ∀ {rows : List StoredItem} {items : List OrderItem},
    rebuild_items s rows = .ok items →
    items.map OrderItem.price_at_order = rows.map StoredItem.price_at_order ∧
    items.map OrderItem.quantity = rows.map StoredItem.quantity ∧
    items.map (fun it => some it.product) = rows.map (fun r => s.find_product r.product_id) := by
  intro rows
  induction rows with
  | nil =>
    intro items h
    injection h with h
    subst h
    exact ⟨rfl, rfl, rfl⟩
  | cons r rest ih =>
    intro items h
    simp only [rebuild_items, Store.rebuild_item] at h
    cases hfind : s.find_product r.product_id with
    | none => simp [hfind] at h
    | some p =>
      simp only [hfind] at h
      cases hc : OrderItem.construct p r.quantity r.price_at_order with
      | error e => simp [hc] at h
      | ok item =>
        simp only [hc] at h
        cases hrest : rebuild_items s rest with
        | error e => simp [hrest] at h
        | ok tail =>
          simp only [hrest, Except.ok.injEq] at h
          subst h
          obtain ⟨e1, e2, e3⟩ := ih hrest
          have hit := OrderItem.construct_ok hc
          subst hit
          exact ⟨by simp [e1], by simp [e2], by simp [e3, hfind]⟩

/-- Claim C2 (counterexample): on a catalog holding "Laptop" with stock
10, `create_order([(1, 2)])` stores an order line; reloading it shows an
embedded product with quantity 8 (never the as-of-creation 10), and
after the catalog product is mutated again (`restock_product(1, 5)`)
reloading the *same historical line* shows embedded quantity 13 — the
line's embedded product data changed with the catalog. -/
theorem C2_counterexample :
    c2_store0.products = [⟨some 1, "Laptop", 10, 50⟩] ∧
    WarehouseService.get_order c2_store1 1
      = .ok ⟨some 1, [⟨⟨some 1, "Laptop", 8, 50⟩, 2, 50⟩], 0, "pending"⟩ ∧
    WarehouseService.get_order c2_store2 1
      = .ok ⟨some 1, [⟨⟨some 1, "Laptop", 13, 50⟩, 2, 50⟩], 0, "pending"⟩ :=
  ⟨rfl, rfl, rfl⟩

/-- Claim C2 (amended): an order line embeds no snapshot copy of the
product. Only the line's quantity, `price_at_order` and product identity
are persisted, and catalog mutations leave those stored rows untouched
(`product_update` never writes the order rows); but the embedded product
of a (re)loaded line is the *current* catalog record for the stored
identity, so mutating the catalog product afterwards does change the
historical line's embedded product data. -/
theorem C2_snapshot (s s' : Store) (p : Product) (so : StoredOrder) (o : Order) :
    (s.product_update p = .ok s' → s'.orders = s.orders) ∧
    (s.rebuild_order so = .ok o →
      o.items.map OrderItem.price_at_order = so.items.map StoredItem.price_at_order ∧
      o.items.map OrderItem.quantity = so.items.map StoredItem.quantity ∧
      o.items.map (fun it => some it.product)
        = so.items.map (fun r => s.find_product r.product_id)) := by
  constructor
  · intro h
    simp only [Store.product_update] at h
    cases hid : p.id with
    | none => simp [hid] at h
    | some i =>
      simp only [hid] at h
      cases hrep : replace_product_row s.products i p with
      | none => simp [hrep] at h
      | some rows =>
        simp only [hrep, Except.ok.injEq] at h
        rw [← h]
  · intro h
    simp only [Store.rebuild_order] at h
    cases hre : rebuild_items s so.items with
    | error e => simp [hre] at h
    | ok items =>
      simp only [hre, Except.ok.injEq] at h
      have := rebuild_items_ok hre
      rw [← h]
      exact this

/-- Witness for C2 (amended), on the concrete scenario stores. -/
theorem C2_snapshot_witness :
    (c2_store0.product_update ⟨some 1, "Laptop", 8, 50⟩
      = .ok ⟨[⟨some 1, "Laptop", 8, 50⟩], [], 1⟩ ∧
     ([] : List StoredOrder) = ([] : List StoredOrder)) ∧
    (c2_store2.rebuild_order ⟨1, "pending", 0, [⟨some 1, 2, 50⟩]⟩
      = .ok ⟨some 1, [⟨⟨some 1, "Laptop", 13, 50⟩, 2, 50⟩], 0, "pending"⟩ ∧
     [(50 : ℚ)] = [(50 : ℚ)] ∧ [(2 : Int)] = [(2 : Int)] ∧
     [some (⟨some 1, "Laptop", 13, 50⟩ : Product)]
       = [c2_store2.find_product (some 1)]) :=
  ⟨⟨rfl, (C2_snapshot c2_store0 ⟨[⟨some 1, "Laptop", 8, 50⟩], [], 1⟩
      ⟨some 1, "Laptop", 8, 50⟩ ⟨1, "pending", 0, []⟩ ⟨some 1, [], 0, "pending"⟩).1 rfl⟩,
   ⟨rfl, (C2_snapshot c2_store2 c2_store2 ⟨some 1, "Laptop", 13, 50⟩
      ⟨1, "pending", 0, [⟨some 1, 2, 50⟩]⟩
      ⟨some 1, [⟨⟨some 1, "Laptop", 13, 50⟩, 2, 50⟩], 0, "pending"⟩).2 rfl⟩⟩

/-- A successful product-row update changes neither the order rows nor
the identity counter. -/
theorem Store.product_update_frame {s s' : Store} {p : Product}
    (h : s.product_update p = .ok s') :
    s'.orders = s.orders ∧ s'.next_order_id = s.next_order_id := by
  simp only [Store.product_update] at h
  cases hid : p.id with
  | none => simp [hid] at h
  | some i =>
    simp only [hid] at h
    cases hrep : replace_product_row s.products i p with
    | none => simp [hrep] at h
    | some rows =>
      simp only [hrep, Except.ok.injEq] at h
      rw [← h]
      exact ⟨rfl, rfl⟩

/-- The `create_order` loop only ever writes product rows: order rows
and the order-identity counter pass through untouched, whether the loop
succeeds or aborts mid-list. -/
theorem create_order_loop_frame : ∀ (pairs : List (Int × Int)) (s : Store) (o : Order),
    (WarehouseService.create_order_loop s o pairs).2.orders = s.orders ∧
    (WarehouseService.create_order_loop s o pairs).2.next_order_id = s.next_order_id := by
  intro pairs
  induction pairs with
  | nil =>
    intro s o
    exact ⟨rfl, rfl⟩
  | cons pr rest ih =>
    intro s o
    obtain ⟨pid, q⟩ := pr
    simp only [WarehouseService.create_order_loop]
    split
    · exact ⟨rfl, rfl⟩
    next product hg =>
      split
      · exact ⟨rfl, rfl⟩
      next hlt =>
        split
        · exact ⟨rfl, rfl⟩
        next o2 ha =>
          split
          · exact ⟨rfl, rfl⟩
          next product2 hr =>
            split
            · exact ⟨rfl, rfl⟩
            next s2 hu =>
              obtain ⟨ho, hn⟩ := Store.product_update_frame hu
              obtain ⟨iho, ihn⟩ := ih s2 o2
              exact ⟨iho.trans ho, ihn.trans hn⟩

/-- Claim C7: the pairs are processed in the given sequence by
`create_order_loop`, each successful step persisting its stock reduction
before the next pair is examined. If the pair being processed requests
more than the product's stock at that moment, the call fails right there
with `InsufficientStock` (carrying the name, the requested and the
available amount) and the store is exactly the store that already holds
the earlier pairs' persisted reductions; and whenever `create_order`
fails with any error, no order row is ever added (the order store and
the order-identity counter are those of the initial state). -/
theorem C7_create_order_insufficiency :
    (∀ (s : Store) (o : Order) (pid q : Int) (rest : List (Int × Int)) (product : Product),
      WarehouseService.get_product s (some pid) = .ok product →
      product.quantity < q →
      WarehouseService.create_order_loop s o ((pid, q) :: rest) =
        (.error (.insufficientStock product.name q product.quantity), s)) ∧
    (∀ (s : Store) (pairs : List (Int × Int)) (e : DomainError),
      (WarehouseService.create_order s pairs).1 = .error e →
      (WarehouseService.create_order s pairs).2.orders = s.orders ∧
      (WarehouseService.create_order s pairs).2.next_order_id = s.next_order_id) := by
  constructor
  · intro s o pid q rest product hg hlt
    simp only [WarehouseService.create_order_loop, hg, if_pos hlt]
  · intro s pairs e h
    simp only [WarehouseService.create_order] at h ⊢
    cases hl : WarehouseService.create_order_loop s ⟨none, [], 0, "pending"⟩ pairs with
    | mk res s2 =>
      have hframe := create_order_loop_frame pairs s ⟨none, [], 0, "pending"⟩
      rw [hl] at hframe
      cases res with
      | error e2 =>
        simp only [hl]
        exact hframe
      | ok o =>
        rw [hl] at h
        simp [Store.order_add] at h

/-- Witness for C7: ordering 2 units of "A" (stock 10) and then 5 units
of "B" (stock 1) fails with `InsufficientStock("B", 5, 1)`; the store at
the moment of failure keeps the persisted reduction of "A" to 8, and no
order row is created. -/
theorem C7_create_order_insufficiency_witness :
    (WarehouseService.create_order_loop c7_store ⟨none, [], 0, "pending"⟩ [(1, 5)]
      = (.error (.insufficientStock "Laptop" 5 1), c7_store)) ∧
    ((WarehouseService.create_order c7b_store [(1, 2), (2, 5)]).2.orders
        = c7b_store.orders ∧
     (WarehouseService.create_order c7b_store [(1, 2), (2, 5)]).2.next_order_id
        = c7b_store.next_order_id) ∧
    (WarehouseService.create_order c7b_store [(1, 2), (2, 5)]).1
      = .error (.insufficientStock "B" 5 1) ∧
    (WarehouseService.create_order c7b_store [(1, 2), (2, 5)]).2.products
      = [⟨some 1, "A", 8, 50⟩, ⟨some 2, "B", 1, 50⟩] :=
  ⟨C7_create_order_insufficiency.1 c7_store ⟨none, [], 0, "pending"⟩ 1 5 []
      ⟨some 1, "Laptop", 1, 50⟩ rfl (by decide),
   C7_create_order_insufficiency.2 c7b_store [(1, 2), (2, 5)]
      (.insufficientStock "B" 5 1) rfl,
   rfl, rfl⟩

/-- A product row that `find?` locates can be removed: the store delete
reports `true`. -/
theorem remove_product_row_of_found : ∀ (ps : List Product) (pid : Int) (p : Product),
    ps.find? (fun q => decide (q.id = some pid)) = some p →
    ∃ rows, remove_product_row ps pid = some rows := by
  intro ps pid p
  induction ps with
  | nil => intro h; simp at h
  | cons q rest ih =>
    intro h
    by_cases hq : q.id = some pid
    · exact ⟨rest, by simp [remove_product_row, hq]⟩
    · rw [List.find?_cons_of_neg _ (by simp [hq])] at h
      obtain ⟨rows, hrows⟩ := ih h
      exact ⟨q :: rows, by simp [remove_product_row, hq, hrows]⟩

/-- Claim C9: `delete_product` fails with `ProductNotFound` when the
product row is absent (store untouched); when present it scans the
rebuilt orders of any status, and the scan comes up empty exactly when
no order line references the product identity; on the first referencing
order found it fails with the `ValueError` naming that order (store
untouched); only when no order references the product is the store
delete invoked, which then succeeds. -/
theorem C9_delete_product (s : Store) (pid : Int) :
    (s.find_product (some pid) = none →
      WarehouseService.delete_product s pid = (.error (.productNotFound (some pid)), s)) ∧
    (∀ product, s.find_product (some pid) = some product →
      ∀ all_orders, s.orders_list = .ok all_orders →
        (find_referencing_order all_orders pid = none ↔
          ∀ o ∈ all_orders, ∀ it ∈ o.items, it.product.id ≠ some pid) ∧
        (∀ o, find_referencing_order all_orders pid = some o →
          WarehouseService.delete_product s pid =
            (.error (.valueError ("Cannot delete product " ++ toString pid ++
              ": it is referenced in order " ++ idStr o.id)), s)) ∧
        (find_referencing_order all_orders pid = none →
          WarehouseService.delete_product s pid = (.ok true, (s.product_delete pid).2))) := by
  constructor
  · intro h
    simp only [WarehouseService.delete_product, WarehouseService.get_product, h]
  · intro product hp all_orders hlist
    refine ⟨?_, ?_, ?_⟩
    · simp only [find_referencing_order, List.find?_eq_none, List.any_eq_true,
        decide_eq_true_eq, not_exists, not_and]
    · intro o ho
      simp only [WarehouseService.delete_product, WarehouseService.get_product, hp, hlist, ho]
    · intro hnone
      have hrow : s.find_product (some pid) = some product := hp
      simp only [Store.find_product] at hrow
      obtain ⟨rows, hrows⟩ := remove_product_row_of_found s.products pid product hrow
      simp only [WarehouseService.delete_product, WarehouseService.get_product, hp, hlist,
        hnone, Store.product_delete, hrows]

/-- Witness for C9 on `c9_store`: product 3 is absent; product 1 is
referenced by order 1 (of status "completed") so deletion fails naming
that order; product 2 is unreferenced so the store delete runs and
succeeds. -/
theorem C9_delete_product_witness :
    (WarehouseService.delete_product c9_store 3
      = (.error (.productNotFound (some 3)), c9_store)) ∧
    (WarehouseService.delete_product c9_store 1
      = (.error (.valueError ("Cannot delete product " ++ toString (1 : Int) ++
          ": it is referenced in order " ++ idStr (some 1))), c9_store)) ∧
    (WarehouseService.delete_product c9_store 2
      = (.ok true, (c9_store.product_delete 2).2)) ∧
    (c9_store.product_delete 2).2.products = [⟨some 1, "Laptop", 10, 50⟩] :=
  ⟨(C9_delete_product c9_store 3).1 rfl,
   ((C9_delete_product c9_store 1).2 ⟨some 1, "Laptop", 10, 50⟩ rfl
      [⟨some 1, [⟨⟨some 1, "Laptop", 10, 50⟩, 2, 50⟩], 0, "completed"⟩] rfl).2.1
      ⟨some 1, [⟨⟨some 1, "Laptop", 10, 50⟩, 2, 50⟩], 0, "completed"⟩ rfl,
   ((C9_delete_product c9_store 2).2 ⟨some 2, "Mouse", 5, 10⟩ rfl
      [⟨some 1, [⟨⟨some 1, "Laptop", 10, 50⟩, 2, 50⟩], 0, "completed"⟩] rfl).2.2 rfl,
   rfl⟩

/-- `line_quantity_sum` over a cons: the head line contributes its
quantity exactly when it references the identity. -/
theorem line_quantity_sum_cons (it : OrderItem) (rest : List OrderItem) (pid : Option Int) :
    line_quantity_sum (it :: rest) pid =
      (if it.product.id = pid then it.quantity else 0) + line_quantity_sum rest pid := by
  by_cases h : it.product.id = pid <;>
    simp [line_quantity_sum, List.filter_cons, h]

/-- Bumping the quantity of rows with identity `i` is the identity map
when no row carries that identity. -/
theorem map_bump_eq_self (ps : List Product) (i : Int) (d : Int)
    (h : ∀ p ∈ ps, p.id ≠ some i) :
    ps.map (fun p => if p.id = some i then { p with quantity := p.quantity + d } else p)
      = ps := by
  induction ps with
  | nil => rfl
  | cons q rest ih =>
    have h1 : q.id ≠ some i := h q (List.mem_cons_self _ _)
    have h2 := ih (fun x hx => h x (List.mem_cons_of_mem _ hx))
    simp [h1, h2]

/-- With identities unique, replacing the row `find?` located by its
quantity-bumped copy is the same as bumping every row with that
identity. -/
theorem replace_product_row_eq_map (ps : List Product) (i : Int) (d : Int)
    (product : Product) (hnd : (ps.map Product.id).Nodup)
    (hfind : ps.find? (fun p => decide (p.id = some i)) = some product) :
    replace_product_row ps i { product with quantity := product.quantity + d } =
      some (ps.map fun p =>
        if p.id = some i then { p with quantity := p.quantity + d } else p) := by
  induction ps with
  | nil => simp at hfind
  | cons q rest ih =>
    rw [List.map_cons, List.nodup_cons] at hnd
    obtain ⟨hq_not, hnd_rest⟩ := hnd
    by_cases hq : q.id = some i
    · rw [List.find?_cons_of_pos _ (by simp [hq])] at hfind
      injection hfind with hfind
      subst hfind
      have hrest : ∀ p ∈ rest, p.id ≠ some i := by
        intro p hp hC
        have : p.id ∈ rest.map Product.id := List.mem_map_of_mem _ hp
        rw [hC, ← hq] at this
        exact hq_not this
      simp [replace_product_row, hq, map_bump_eq_self rest i d hrest]
    · rw [List.find?_cons_of_neg _ (by simp [hq])] at hfind
      have := ih hnd_rest hfind
      simp [replace_product_row, hq, this]

/-- Bumping quantities never changes the row identities. -/
theorem map_bump_ids (ps : List Product) (i : Int) (d : Int) :
    ((ps.map fun p =>
        if p.id = some i then { p with quantity := p.quantity + d } else p).map Product.id)
      = ps.map Product.id := by
  induction ps with
  | nil => rfl
  | cons q rest ih =>
    by_cases h : q.id = some i <;> simp [h, ih]

/-- Adding the line sum of an empty order is the identity map. -/
theorem map_add_line_sum_nil (ps : List Product) :
    ps.map (fun p => { p with quantity := p.quantity + line_quantity_sum [] p.id }) = ps := by
  induction ps with
  | nil => rfl
  | cons q rest ih => simp [line_quantity_sum, ih]

/-- What a successful `get_product` tells us: the identity was concrete
and `find?` located the row, which carries that identity. -/
theorem get_product_ok {s : Store} {pid : Option Int} {product : Product}
    (h : WarehouseService.get_product s pid = .ok product) :
    ∃ i, pid = some i ∧
      s.products.find? (fun p => decide (p.id = some i)) = some product ∧
      product.id = some i := by
  cases hfp : s.find_product pid with
  | none => simp [WarehouseService.get_product, hfp] at h
  | some q =>
    simp only [WarehouseService.get_product, hfp, Except.ok.injEq] at h
    subst h
    cases pid with
    | none => simp [Store.find_product] at hfp
    | some i =>
      simp only [Store.find_product] at hfp
      refine ⟨i, rfl, hfp, ?_⟩
      have hq := List.find?_some hfp
      simpa using hq

/-- Characterisation of a successful restore loop: with unique product
identities, each product row ends up bumped by the total quantity of the
order lines referencing it, and nothing else in the store changes. -/
theorem restore_items_ok : ∀ (items : List OrderItem) (s s2 : Store),
    (s.products.map Product.id).Nodup →
    WarehouseService.restore_items s items = (.ok (), s2) →
    s2.products = s.products.map
      (fun p => { p with quantity := p.quantity + line_quantity_sum items p.id }) ∧
    s2.orders = s.orders ∧ s2.next_order_id = s.next_order_id := by
  intro items
  induction items with
  | nil =>
    intro s s2 hnd h
    simp only [WarehouseService.restore_items, Prod.mk.injEq] at h
    rw [← h.2]
    exact ⟨(map_add_line_sum_nil s.products).symm, rfl, rfl⟩
  | cons it rest ih =>
    intro s s2 hnd h
    simp only [WarehouseService.restore_items] at h
    split at h
    · simp at h
    next product hg =>
      split at h
      · simp at h
      next product2 hinc =>
        split at h
        · simp at h
        next s1 hup =>
          obtain ⟨i, hpid, hfind, hprodid⟩ := get_product_ok hg
          have h2 : product2 = { product with quantity := product.quantity + it.quantity } := by
            simp only [Product.increase_quantity] at hinc
            split at hinc
            · simp at hinc
            · injection hinc with hinc
              exact hinc.symm
          subst h2
          have hrep := replace_product_row_eq_map s.products i it.quantity product hnd hfind
          rw [hprodid] at hrep
          simp only [Store.product_update, hprodid, hrep, Except.ok.injEq] at hup
          have hprods : s1.products = s.products.map
              (fun p => if p.id = some i then { p with quantity := p.quantity + it.quantity }
                        else p) := by rw [← hup]
          have horders : s1.orders = s.orders := by rw [← hup]
          have hnext : s1.next_order_id = s.next_order_id := by rw [← hup]
          have hnd1 : (s1.products.map Product.id).Nodup := by
            rw [hprods, map_bump_ids]
            exact hnd
          obtain ⟨hp2, ho2, hn2⟩ := ih s1 s2 hnd1 h
          refine ⟨?_, ho2.trans horders, hn2.trans hnext⟩
          rw [hp2]
          rw [hprods, List.map_map]
          apply List.map_congr_left
          intro p _
          by_cases hpi : p.id = some i
          · have hcond : it.product.id = p.id := by rw [hpid, hpi]
            simp [Function.comp, hpi, hcond, line_quantity_sum_cons, add_assoc]
          · have hcond : ¬ it.product.id = p.id := by
              rw [hpid]
              exact fun hC => hpi hC.symm
            simp [Function.comp, hpi, hcond, line_quantity_sum_cons]

/-- What a successful `get_order` tells us: some stored row with the
requested identity was found and rebuilt, and the rebuilt order carries
that identity. -/
theorem get_order_ok {s : Store} {oid : Int} {order : Order}
    (h : WarehouseService.get_order s oid = .ok order) :
    ∃ so, so ∈ s.orders ∧ so.id = oid ∧
      s.rebuild_order so = .ok order ∧ order.id = some oid := by
  cases hf : s.orders.find? (fun so => decide (so.id = oid)) with
  | none => simp [WarehouseService.get_order, Store.order_get, hf] at h
  | some so =>
    cases hr : s.rebuild_order so with
    | error e => simp [WarehouseService.get_order, Store.order_get, hf, hr] at h
    | ok o =>
      simp only [WarehouseService.get_order, Store.order_get, hf, hr, Except.ok.injEq] at h
      subst h
      have hmem := List.mem_of_find?_eq_some hf
      have hid : so.id = oid := by
        have := List.find?_some hf
        simpa using this
      refine ⟨so, hmem, hid, hr, ?_⟩
      simp only [Store.rebuild_order] at hr
      split at hr
      · simp at hr
      · injection hr with hr
        rw [← hr, ← hid]
  
/-- Setting the status of rows with identity `i` is the identity map
when no row carries that identity. -/
theorem map_status_eq_self (rows : List StoredOrder) (i : Int) (st : String)
    (h : ∀ so ∈ rows, so.id ≠ i) :
    rows.map (fun so => if so.id = i then { so with status := st } else so) = rows := by
  induction rows with
  | nil => rfl
  | cons so rest ih =>
    have h1 : so.id ≠ i := h so (List.mem_cons_self _ _)
    have h2 := ih (fun x hx => h x (List.mem_cons_of_mem _ hx))
    simp [h1, h2]

/-- With order identities unique and the identity present, the
first-match status write equals setting the status on every row with
that identity. -/
theorem replace_order_status_eq_map (rows : List StoredOrder) (i : Int) (st : String)
    (hnd : (rows.map StoredOrder.id).Nodup) :
    ∀ so0 ∈ rows, so0.id = i →
    replace_order_status rows i st =
      some (rows.map fun so => if so.id = i then { so with status := st } else so) := by
  induction rows with
  | nil =>
    intro so0 h
    simp at h
  | cons so rest ih =>
    intro so0 hmem hid0
    rw [List.map_cons, List.nodup_cons] at hnd
    obtain ⟨hnotin, hndr⟩ := hnd
    by_cases hq : so.id = i
    · have hrest : ∀ x ∈ rest, x.id ≠ i := by
        intro x hx hC
        have : x.id ∈ rest.map StoredOrder.id := List.mem_map_of_mem _ hx
        rw [hC, ← hq] at this
        exact hnotin this
      simp [replace_order_status, hq, map_status_eq_self rest i st hrest]
    · have hmem2 : so0 ∈ rest := by
        cases List.mem_cons.1 hmem with
        | inl h => exact absurd (h ▸ hid0) hq
        | inr h => exact h
      have := ih hndr so0 hmem2 hid0
      simp [replace_order_status, hq, this]

/-- Claim C8: on a loaded order, `cancel_order` fails with the generic
`ValueError` (store untouched) unless the status is `pending` or
`confirmed`. When the call succeeds, each product row's quantity has
been increased by the total quantity of the order's lines referencing it
— computed against the *current* store rows, not the order's embedded
product data — and persisted; the order row's status is set to
`cancelled` and persisted, everything else (other rows' fields, the
identity counter) unchanged; the returned order is the loaded order with
status `cancelled`. -/
theorem C8_cancel_order (s : Store) (oid : Int) (order : Order)
    (hget : WarehouseService.get_order s oid = .ok order) :
    (order.status ≠ "pending" → order.status ≠ "confirmed" →
      WarehouseService.cancel_order s oid =
        (.error (.valueError ("Cannot cancel order with status " ++ order.status)), s)) ∧
    (∀ (r : Order) (s2 : Store),
      WarehouseService.cancel_order s oid = (.ok r, s2) →
      (s.products.map Product.id).Nodup →
      (s.orders.map StoredOrder.id).Nodup →
      r = { order with status := "cancelled" } ∧
      s2.products = s.products.map
        (fun p => { p with quantity := p.quantity + line_quantity_sum order.items p.id }) ∧
      s2.orders = s.orders.map
        (fun so => if so.id = oid then { so with status := "cancelled" } else so) ∧
      s2.next_order_id = s.next_order_id) := by
  constructor
  · intro h1 h2
    simp only [WarehouseService.cancel_order, hget]
    rw [if_pos ⟨h1, h2⟩]
  · intro r s2 hrun hndp hndo
    simp only [WarehouseService.cancel_order, hget] at hrun
    by_cases hst : order.status ≠ "pending" ∧ order.status ≠ "confirmed"
    · rw [if_pos hst] at hrun
      simp at hrun
    · rw [if_neg hst] at hrun
      rw [not_and_or, not_not, not_not] at hst
      have hne : order.status ≠ "completed" := by
        rcases hst with h | h <;> rw [h] <;> decide
      have hcan : order.cancel = .ok { order with status := "cancelled" } := by
        simp [Order.cancel, hne]
      obtain ⟨so, hsoMem, hsoid, hrb, hordid⟩ := get_order_ok hget
      split at hrun
      · simp at hrun
      next u s1 hres =>
        obtain ⟨hp1, ho1, hn1⟩ := restore_items_ok order.items s s1 hndp hres
        have hormap := replace_order_status_eq_map s.orders oid "cancelled" hndo
          so hsoMem hsoid
        rw [← ho1] at hormap
        simp only [hcan, Store.order_update, hordid, hormap] at hrun
        simp only [Prod.mk.injEq, Except.ok.injEq] at hrun
        obtain ⟨hr1, hr2⟩ := hrun
        refine ⟨?_, ?_, ?_, ?_⟩
        · rw [hordid]
          exact hr1.symm
        · rw [← hr2]
          exact hp1
        · rw [← hr2]
          rw [ho1]
        · rw [← hr2]
          exact hn1

/-- Witness for C8: cancelling the completed order of `c8b_store` fails
with the status `ValueError`, store untouched; cancelling the pending
order of `c8_store` returns the cancelled order, restores the product
quantity from 8 to 10 (2 units on the single line) in the product row,
and flips the stored order row to `cancelled`. -/
theorem C8_cancel_order_witness :
    (WarehouseService.cancel_order c8b_store 1
      = (.error (.valueError ("Cannot cancel order with status " ++ "completed")),
         c8b_store)) ∧
    ((⟨some 1, [⟨⟨some 1, "Laptop", 8, 50⟩, 2, 50⟩], 0, "cancelled"⟩ : Order)
      = { (⟨some 1, [⟨⟨some 1, "Laptop", 8, 50⟩, 2, 50⟩], 0, "pending"⟩ : Order) with
          status := "cancelled" } ∧
     (⟨[⟨some 1, "Laptop", 10, 50⟩], [⟨1, "cancelled", 0, [⟨some 1, 2, 50⟩]⟩], 2⟩ : Store).products
       = c8_store.products.map
           (fun p => { p with quantity := p.quantity +
             line_quantity_sum [⟨⟨some 1, "Laptop", 8, 50⟩, 2, 50⟩] p.id }) ∧
     (⟨[⟨some 1, "Laptop", 10, 50⟩], [⟨1, "cancelled", 0, [⟨some 1, 2, 50⟩]⟩], 2⟩ : Store).orders
       = c8_store.orders.map
           (fun so => if so.id = 1 then { so with status := "cancelled" } else so) ∧
     (⟨[⟨some 1, "Laptop", 10, 50⟩], [⟨1, "cancelled", 0, [⟨some 1, 2, 50⟩]⟩], 2⟩ : Store).next_order_id
       = c8_store.next_order_id) :=
  ⟨(C8_cancel_order c8b_store 1
      ⟨some 1, [⟨⟨some 1, "Laptop", 8, 50⟩, 2, 50⟩], 0, "completed"⟩ rfl).1
      (by decide) (by decide),
   (C8_cancel_order c8_store 1
      ⟨some 1, [⟨⟨some 1, "Laptop", 8, 50⟩, 2, 50⟩], 0, "pending"⟩ rfl).2
      ⟨some 1, [⟨⟨some 1, "Laptop", 8, 50⟩, 2, 50⟩], 0, "cancelled"⟩
      ⟨[⟨some 1, "Laptop", 10, 50⟩], [⟨1, "cancelled", 0, [⟨some 1, 2, 50⟩]⟩], 2⟩
      rfl (by decide) (by decide)⟩
